import Mathlib

/-!
Verification of the recommendation core of the MeezGo AI media-analyzer
backend (`src/main.py`).  The single decision procedure of the service,
`_compute_recommendations`, is embedded below as `computeRecommendations`,
together with the request/response data model.  Python `Optional` fields
become `Option`, Python truthiness of optional ints becomes `pyBool`,
Python unbounded ints become `Int`, the float confidence (only ever one of
the three literals 0.85 / 0.78 / 0.7, with no arithmetic performed on it)
becomes `ℚ`.
-/

/-- `Context` input model (`class Context(BaseModel)` in `src/main.py`). -/
structure Context where
  place_type : Option String := none
  place_size : Option String := none
  pickup_floor : Option Int := none
  destination_floor : Option Int := none
  has_elevator : Option Int := none
  add_heavy : Option Int := none
  service_type : Option String := none
deriving Repr, DecidableEq

/-- `AnalyzeRequest` input model (`class AnalyzeRequest(BaseModel)`). -/
structure AnalyzeRequest where
  mode : String
  video_url : Option String := none
  image_urls : List String := []
  context : Context
deriving Repr, DecidableEq

/-- `Recommendations` output model (`class Recommendations(BaseModel)`). -/
structure Recommendations where
  service_type : String
  truck_size : Option String := none
  workers : Option Int := none
  estimated_minutes : Option Int := none
  reasons : List String := []
  confidence : ℚ := 7/10
  recommended_services : List String := []
deriving Repr, DecidableEq

/-- Python truthiness of an `Optional[int]`: `bool(None) = bool(0) = False`,
any other integer is truthy (`bool(ctx.add_heavy)`, `bool(ctx.has_elevator)`). -/
def pyBool (o : Option Int) : Bool :=
  o.getD 0 != 0

/-- Python `str.lower()`, modelled code point by code point (every key and
prefix the program compares against is ASCII). -/
def pyLower (s : String) : String :=
  String.mk (s.data.map Char.toLower)

/-- Python `str.startswith(p)`: the code points of `p` are a prefix of the
code points of `s`. -/
def pyStartsWith (s p : String) : Bool :=
  p.data.isPrefixOf s.data

/-- `(ctx.place_size or "").lower()` — `None` and `""` both normalize to `""`. -/
def normPlaceSize (ctx : Context) : String :=
  pyLower (ctx.place_size.getD "")

/-- `floors_total = (ctx.pickup_floor or 0) + (ctx.destination_floor or 0)`. -/
def floorsTotal (ctx : Context) : Int :=
  ctx.pickup_floor.getD 0 + ctx.destination_floor.getD 0

/-- The sequential minimum-service assignment of `src/main.py` lines 51-59:
each `if` overrides the previous value unconditionally when its prefix test
matches. -/
def minServiceOf (place_size : String) : String :=
  let m := "light"
  let m := if pyStartsWith place_size "s3_" || pyStartsWith place_size "s4_" then "medium" else m
  let m := if pyStartsWith place_size "villa_250_350" then "medium" else m
  let m := if pyStartsWith place_size "villa_350_500" || pyStartsWith place_size "comm_150_250" then "heavy" else m
  if pyStartsWith place_size "comm_100_150" then "medium" else m

/-- The `order = {"light": 0, "medium": 1, "heavy": 2}` dict, with
`order.get(s, 0)` defaulting to `0` on a key that is absent. -/
def order (s : String) : Nat :=
  if s = "light" then 0
  else if s = "medium" then 1
  else if s = "heavy" then 2
  else 0

/-- Lines 61-76 of `src/main.py`: the `suggest_level` accumulator together
with the reasons appended so far, threaded in source order (`add_heavy`
check, then the floors/elevator check, then the exclusive image-count
`if/elif`). -/
def tierSignals (add_heavy has_elevator : Bool) (floors_total : Int)
    (num_images : Nat) : Nat × List String :=
  let s1 : Nat × List String := (1, [])
  let s2 := if add_heavy then (max s1.1 3, s1.2 ++ ["vision_add_heavy_context"]) else s1
  let s3 := if has_elevator = false ∧ floors_total ≥ 3 then
      (max s2.1 2, s2.2 ++ ["vision_multi_floor_no_elevator"]) else s2
  if num_images ≥ 12 then (max s3.1 3, s3.2 ++ ["vision_many_images_high_volume"])
  else if num_images ≥ 6 then (max s3.1 2, s3.2 ++ ["vision_medium_images_volume"])
  else s3

/-- `truck_map.get(place_size)` — the exact-key lookup of the dict literal at
lines 89-104 of `src/main.py`, `none` when the key is absent. -/
def truckMapLookup (place_size : String) : Option (String × Int × Int) :=
  if place_size = "s1_40_60" then some ("small", 2, 90)
  else if place_size = "s1_60_80" then some ("small", 2, 120)
  else if place_size = "s2_80_100" then some ("medium", 3, 150)
  else if place_size = "s2_100_120" then some ("medium", 3, 180)
  else if place_size = "s3_120_150" then some ("large", 4, 240)
  else if place_size = "s3_150_180" then some ("large", 4, 300)
  else if place_size = "s4_180_220" then some ("xl", 4, 360)
  else if place_size = "s4_220_260" then some ("xl", 5, 420)
  else if place_size = "villa_250_350" then some ("xl", 4, 420)
  else if place_size = "villa_350_500" then some ("xxl", 5, 480)
  else if place_size = "comm_30_60" then some ("small", 2, 120)
  else if place_size = "comm_60_100" then some ("medium", 3, 180)
  else if place_size = "comm_100_150" then some ("large", 4, 240)
  else if place_size = "comm_150_250" then some ("xl", 5, 360)
  else none

/-- `truck_map.get(place_size, ("small", 2, 120))`. -/
def truckMap (place_size : String) : String × Int × Int :=
  (truckMapLookup place_size).getD ("small", 2, 120)

/-- Lines 78-82 of `src/main.py`: map the integer `suggest_level` to a
service-tier string. -/
def svcOfLevel (suggest_level : Nat) : String :=
  if suggest_level ≥ 3 then "heavy"
  else if suggest_level ≥ 2 then "medium"
  else "light"

/-- Shallow embedding of `_compute_recommendations` (lines 41-132 of
`src/main.py`). -/
def computeRecommendations (req : AnalyzeRequest) : Recommendations :=
  let ctx := req.context
  let place_size := normPlaceSize ctx
  let add_heavy := pyBool ctx.add_heavy
  let floors_total := floorsTotal ctx
  let has_elevator := pyBool ctx.has_elevator
  let min_service := minServiceOf place_size
  let num_images := req.image_urls.length
  let sig := tierSignals add_heavy has_elevator floors_total num_images
  let suggest_level := sig.1
  let svc0 := svcOfLevel suggest_level
  let svc := if order svc0 < order min_service then min_service else svc0
  let reasons := sig.2 ++
    (if order svc0 < order min_service then ["vision_place_size_minimum"] else [])
  let triple := truckMap place_size
  let est0 := triple.2.2
  let est_minutes := if has_elevator = false ∧ floors_total > 0 then
      est0 + floors_total * 20 else est0
  let base_conf : ℚ := if num_images ≥ 10 then 85/100
    else if num_images ≥ 5 then 78/100
    else 7/10
  let rec_services := if svc = "light" then ["light", "medium"]
    else if svc = "medium" then ["medium", "heavy"]
    else ["heavy"]
  { service_type := svc
    truck_size := some triple.1
    workers := some triple.2.1
    estimated_minutes := some est_minutes
    reasons := reasons
    confidence := base_conf
    recommended_services := rec_services }

/-- Closed-form description of the final `suggest_level` (specification
side, §4.2 of the spec): level 3 when the heavy flag or the 12-image
threshold fires, level 2 when the floors/elevator rule or the 6-image
threshold fires, level 1 otherwise. -/
def levelSpec (add_heavy has_elevator : Bool) (floors_total : Int)
    (num_images : Nat) : Nat :=
  if add_heavy = true ∨ num_images ≥ 12 then 3
  else if (has_elevator = false ∧ floors_total ≥ 3) ∨ num_images ≥ 6 then 2
  else 1

/-- The tier-estimation reason codes as the spec lists them (§4.2): one
optional singleton per rule, concatenated in the fixed evaluation order,
the two image rules mutually exclusive. -/
def tierReasonsSpec (add_heavy has_elevator : Bool) (floors_total : Int)
    (num_images : Nat) : List String :=
  (if add_heavy = true then ["vision_add_heavy_context"] else []) ++
  ((if has_elevator = false ∧ floors_total ≥ 3 then ["vision_multi_floor_no_elevator"] else []) ++
   (if num_images ≥ 12 then ["vision_many_images_high_volume"]
    else if num_images ≥ 6 then ["vision_medium_images_volume"]
    else []))

/-- A request whose context only sets the heavy-items flag. -/
def reqHeavyFlag : AnalyzeRequest :=
  { mode := "images", context := { add_heavy := some 1 } }

/-- A request with an elevator and an unlisted place size. -/
def reqUnknown : AnalyzeRequest :=
  { mode := "images",
    context := { place_size := some "unknown_code", has_elevator := some 1 } }

/-- A request with three total floors and no elevator. -/
def reqNoElev : AnalyzeRequest :=
  { mode := "images",
    context := { pickup_floor := some 2, destination_floor := some 1 } }

/-- A request with an elevator and no other signals. -/
def reqElev : AnalyzeRequest :=
  { mode := "images", context := { has_elevator := some 1 } }

/-- A request with no images and an empty context. -/
def reqImgs0 : AnalyzeRequest :=
  { mode := "images", context := {} }

/-- `reqImgs0` with six image URLs. -/
def reqImgs6 : AnalyzeRequest :=
  { mode := "images",
    image_urls := ["a", "b", "c", "d", "e", "f"], context := {} }

/-- The example request of §8 of the spec: a 350-500 m² villa with an
elevator and no media signals. -/
def reqVilla : AnalyzeRequest :=
  { mode := "images", image_urls := [],
    context := { place_size := some "villa_350_500", add_heavy := some 0,
                 has_elevator := some 1, pickup_floor := some 0,
                 destination_floor := some 0 } }

/-- A video-mode request carrying the same core signals as `reqVideoTwin`
below, with different incidental fields. -/
def reqVideoA : AnalyzeRequest :=
  { mode := "video", video_url := some "http:u1",
    image_urls := ["x", "y"],
    context := { place_type := some "apartment", place_size := some "s2_80_100",
                 pickup_floor := some 1, destination_floor := some 1,
                 has_elevator := some 0, add_heavy := some 0,
                 service_type := some "light" } }

/-- An images-mode request agreeing with `reqVideoA` on place size, floors,
elevator, heavy flag and image count only. -/
def reqVideoTwin : AnalyzeRequest :=
  { mode := "images", video_url := none,
    image_urls := ["p", "q"],
    context := { place_type := some "office", place_size := some "s2_80_100",
                 pickup_floor := some 1, destination_floor := some 1,
                 has_elevator := some 0, add_heavy := some 0,
                 service_type := some "heavy" } }

/-! ## Basic lemmas about the tier machinery -/

theorem minServiceOf_mem (ps : String) :
    minServiceOf ps = "light" ∨ minServiceOf ps = "medium" ∨ minServiceOf ps = "heavy" := by
  unfold minServiceOf
  repeat' split
  all_goals simp

theorem svcOfLevel_mem (lv : Nat) :
    svcOfLevel lv = "light" ∨ svcOfLevel lv = "medium" ∨ svcOfLevel lv = "heavy" := by
  unfold svcOfLevel
  repeat' split
  all_goals simp

theorem order_minServiceOf_le_two (ps : String) : order (minServiceOf ps) ≤ 2 := by
  rcases minServiceOf_mem ps with h | h | h <;> simp [h, order]

theorem order_enforce_ge (svc0 m : String) :
    order m ≤ order (if order svc0 < order m then m else svc0) := by
  split
  · exact Nat.le_refl _
  · next h => exact Nat.le_of_not_lt h

theorem tierSignals_fst (ah he : Bool) (f : Int) (n : Nat) :
    (tierSignals ah he f n).1 = levelSpec ah he f n := by
  unfold tierSignals levelSpec
  by_cases h1 : ah = true <;>
    by_cases h2 : he = false ∧ f ≥ 3 <;>
    by_cases h3 : n ≥ 12 <;>
    by_cases h4 : n ≥ 6 <;>
    simp [h1, h2, h3, h4]

theorem tierSignals_snd (ah he : Bool) (f : Int) (n : Nat) :
    (tierSignals ah he f n).2 = tierReasonsSpec ah he f n := by
  unfold tierSignals tierReasonsSpec
  by_cases h1 : ah = true <;>
    by_cases h2 : he = false ∧ f ≥ 3 <;>
    by_cases h3 : n ≥ 12 <;>
    by_cases h4 : n ≥ 6 <;>
    simp [h1, h2, h3, h4]

/-! ## Claim theorems -/

/-- C1: for every input request, the ordinal of the final `service_type`
(light = 0, medium = 1, heavy = 2) returned by `_compute_recommendations`
is at least the ordinal of the minimum tier derived from `place_size` by
the sequential prefix rules of lines 51-59. -/
theorem size_minimum_enforced (req : AnalyzeRequest) :
    order (minServiceOf (normPlaceSize req.context)) ≤
      order (computeRecommendations req).service_type := by
  simp only [computeRecommendations]
  exact order_enforce_ge _ _

/-- Instantiation of `size_minimum_enforced` at a concrete request. -/
theorem size_minimum_enforced_witness :
    order (minServiceOf (normPlaceSize reqVilla.context)) ≤
      order (computeRecommendations reqVilla).service_type :=
  size_minimum_enforced reqVilla

/-- C2: whenever `add_heavy` is truthy, the reasons list contains
`vision_add_heavy_context` and the final `service_type` is `heavy`,
whatever the other fields hold. -/
theorem add_heavy_forces_heavy (req : AnalyzeRequest)
    (h : pyBool req.context.add_heavy = true) :
    "vision_add_heavy_context" ∈ (computeRecommendations req).reasons ∧
      (computeRecommendations req).service_type = "heavy" := by
  have hle := order_minServiceOf_le_two (normPlaceSize req.context)
  simp only [computeRecommendations, tierSignals_fst, tierSignals_snd, h]
  have hlv : levelSpec true (pyBool req.context.has_elevator)
      (floorsTotal req.context) req.image_urls.length = 3 := by
    simp [levelSpec]
  rw [hlv]
  have hsvc : svcOfLevel 3 = "heavy" := rfl
  rw [hsvc]
  have hnot : ¬ order "heavy" < order (minServiceOf (normPlaceSize req.context)) := by
    have h2 : order "heavy" = 2 := rfl
    omega
  rw [if_neg hnot, if_neg hnot]
  simp [tierReasonsSpec]

/-- Instantiation of `add_heavy_forces_heavy` at a concrete request. -/
theorem add_heavy_forces_heavy_witness :
    "vision_add_heavy_context" ∈ (computeRecommendations reqHeavyFlag).reasons ∧
      (computeRecommendations reqHeavyFlag).service_type = "heavy" :=
  add_heavy_forces_heavy reqHeavyFlag rfl

/-- C3: with a truthy `has_elevator` the estimated minutes are exactly the
base value of the lines 89-105 table for the normalized `place_size`
(120 when the size is unknown); with a falsy `has_elevator` and a positive
`floors_total = f` they are that base plus `f * 20`. -/
theorem estimated_minutes_formula (req : AnalyzeRequest) :
    (pyBool req.context.has_elevator = true →
      (computeRecommendations req).estimated_minutes =
        some (truckMap (normPlaceSize req.context)).2.2) ∧
    (pyBool req.context.has_elevator = false → 0 < floorsTotal req.context →
      (computeRecommendations req).estimated_minutes =
        some ((truckMap (normPlaceSize req.context)).2.2 +
          floorsTotal req.context * 20)) := by
  constructor
  · intro h
    simp only [computeRecommendations, h]
    simp
  · intro h hf
    simp only [computeRecommendations, h]
    simp [hf]

/-- Instantiation of `estimated_minutes_formula`: with an elevator the
empty-size default base 120 is returned as is; without an elevator and
three total floors it becomes 180. -/
theorem estimated_minutes_formula_witness :
    (computeRecommendations reqElev).estimated_minutes = some 120 ∧
      (computeRecommendations reqNoElev).estimated_minutes = some 180 :=
  ⟨((estimated_minutes_formula reqElev).1 rfl).trans rfl,
   ((estimated_minutes_formula reqNoElev).2 rfl (by decide)).trans rfl⟩

/-- C4: the confidence is exactly 0.85 for at least 10 image URLs, exactly
0.78 for at least 5 and fewer than 10, and exactly 0.70 otherwise; hence,
with every other field fixed, confidence is monotone non-decreasing in the
image count. -/
theorem confidence_bands_monotone (req : AnalyzeRequest) :
    ((10 ≤ req.image_urls.length →
        (computeRecommendations req).confidence = 85/100) ∧
     (5 ≤ req.image_urls.length → req.image_urls.length < 10 →
        (computeRecommendations req).confidence = 78/100) ∧
     (req.image_urls.length < 5 →
        (computeRecommendations req).confidence = 70/100)) ∧
    (∀ req2 : AnalyzeRequest, req2.mode = req.mode →
      req2.video_url = req.video_url → req2.context = req.context →
      req.image_urls.length ≤ req2.image_urls.length →
      (computeRecommendations req).confidence ≤
        (computeRecommendations req2).confidence) := by
  refine ⟨⟨?_, ?_, ?_⟩, ?_⟩
  · intro h
    simp only [computeRecommendations]
    rw [if_pos h]
  · intro h5 h10
    simp only [computeRecommendations]
    rw [if_neg (by omega), if_pos h5]
  · intro h
    simp only [computeRecommendations]
    rw [if_neg (by omega), if_neg (by omega)]
    norm_num
  · intro req2 _ _ _ hlen
    simp only [computeRecommendations]
    by_cases h10 : 10 ≤ req.image_urls.length
    · rw [if_pos h10, if_pos (by omega)]
    · by_cases h5 : 5 ≤ req.image_urls.length
      · rw [if_neg (by omega), if_pos h5]
        by_cases h10b : 10 ≤ req2.image_urls.length
        · rw [if_pos h10b]; norm_num
        · rw [if_neg (by omega), if_pos (by omega)]
      · rw [if_neg (by omega), if_neg (by omega)]
        by_cases h10b : 10 ≤ req2.image_urls.length
        · rw [if_pos h10b]; norm_num
        · by_cases h5b : 5 ≤ req2.image_urls.length
          · rw [if_neg (by omega), if_pos h5b]; norm_num
          · rw [if_neg (by omega), if_neg (by omega)]

theorem service_type_mem (req : AnalyzeRequest) :
    (computeRecommendations req).service_type = "light" ∨
      (computeRecommendations req).service_type = "medium" ∨
      (computeRecommendations req).service_type = "heavy" := by
  simp only [computeRecommendations]
  split
  · exact minServiceOf_mem _
  · exact svcOfLevel_mem _

theorem recommended_services_eq (req : AnalyzeRequest) :
    (computeRecommendations req).recommended_services =
      (if (computeRecommendations req).service_type = "light" then ["light", "medium"]
       else if (computeRecommendations req).service_type = "medium" then ["medium", "heavy"]
       else ["heavy"]) := rfl

/-- C5: `recommended_services` is non-empty, starts with the final
`service_type`, is the singleton `["heavy"]` exactly when the tier is heavy,
and otherwise is the two-element escalation list of the final tier. -/
theorem recommended_services_shape (req : AnalyzeRequest) :
    (computeRecommendations req).recommended_services ≠ [] ∧
    (computeRecommendations req).recommended_services.head? =
      some (computeRecommendations req).service_type ∧
    ((computeRecommendations req).recommended_services.length = 1 ↔
      (computeRecommendations req).service_type = "heavy") ∧
    ((computeRecommendations req).service_type = "heavy" →
      (computeRecommendations req).recommended_services = ["heavy"]) ∧
    ((computeRecommendations req).service_type = "light" →
      (computeRecommendations req).recommended_services = ["light", "medium"]) ∧
    ((computeRecommendations req).service_type = "medium" →
      (computeRecommendations req).recommended_services = ["medium", "heavy"]) := by
  rcases service_type_mem req with h | h | h <;>
    rw [recommended_services_eq] <;> simp [h]

/-- Instantiation of `recommended_services_shape`: the villa example ends at
tier heavy, so its service list is the singleton. -/
theorem recommended_services_shape_witness :
    (computeRecommendations reqVilla).recommended_services = ["heavy"] :=
  (recommended_services_shape reqVilla).2.2.2.1 rfl

/-- C6: a normalized `place_size` outside the logistics table that matches
no minimum-tier prefix gets the default logistics triple — truck `small`,
2 workers, 120 base minutes plus the elevator penalty when it applies —
and no minimum tier is enforced. -/
theorem unknown_place_size_defaults (req : AnalyzeRequest)
    (hk : truckMapLookup (normPlaceSize req.context) = none)
    (h1 : pyStartsWith (normPlaceSize req.context) "s3_" = false)
    (h2 : pyStartsWith (normPlaceSize req.context) "s4_" = false)
    (h3 : pyStartsWith (normPlaceSize req.context) "villa_250_350" = false)
    (h4 : pyStartsWith (normPlaceSize req.context) "villa_350_500" = false)
    (h5 : pyStartsWith (normPlaceSize req.context) "comm_150_250" = false)
    (h6 : pyStartsWith (normPlaceSize req.context) "comm_100_150" = false) :
    minServiceOf (normPlaceSize req.context) = "light" ∧
    (computeRecommendations req).truck_size = some "small" ∧
    (computeRecommendations req).workers = some 2 ∧
    (computeRecommendations req).estimated_minutes =
      some (if pyBool req.context.has_elevator = false ∧ 0 < floorsTotal req.context
            then 120 + floorsTotal req.context * 20 else 120) ∧
    "vision_place_size_minimum" ∉ (computeRecommendations req).reasons := by
  have hmin : minServiceOf (normPlaceSize req.context) = "light" := by
    unfold minServiceOf
    rw [h1, h2, h3, h4, h5, h6]
    simp
  refine ⟨hmin, ?_, ?_, ?_, ?_⟩
  · simp [computeRecommendations, truckMap, hk]
  · simp [computeRecommendations, truckMap, hk]
  · simp [computeRecommendations, truckMap, hk]
  · simp only [computeRecommendations, tierSignals_snd, hmin]
    have hz : ¬ order (svcOfLevel (tierSignals (pyBool req.context.add_heavy)
        (pyBool req.context.has_elevator) (floorsTotal req.context)
        req.image_urls.length).1) < order "light" := by
      have : order "light" = 0 := rfl
      omega
    rw [if_neg hz]
    simp only [List.append_nil]
    unfold tierReasonsSpec
    split_ifs <;> simp

/-- Instantiation of `unknown_place_size_defaults` at `place_size =
"unknown_code"` with an elevator: the default triple comes back unchanged. -/
theorem unknown_place_size_defaults_witness :
    minServiceOf (normPlaceSize reqUnknown.context) = "light" ∧
      (computeRecommendations reqUnknown).truck_size = some "small" ∧
      (computeRecommendations reqUnknown).workers = some 2 ∧
      (computeRecommendations reqUnknown).estimated_minutes = some 120 ∧
      "vision_place_size_minimum" ∉ (computeRecommendations reqUnknown).reasons := by
  have h := unknown_place_size_defaults reqUnknown rfl rfl rfl rfl rfl rfl rfl
  exact ⟨h.1, h.2.1, h.2.2.1, h.2.2.2.1.trans rfl, h.2.2.2.2⟩

/-- C7: the reasons list is exactly the codes of the rules that fired, in
the fixed evaluation order — the heavy-context code, then the
multi-floor/no-elevator code, then exactly one of the two image-volume
codes, then the place-size-minimum code when the minimum tier was
enforced. -/
theorem reasons_exact_order (req : AnalyzeRequest) :
    (computeRecommendations req).reasons =
      tierReasonsSpec (pyBool req.context.add_heavy) (pyBool req.context.has_elevator)
          (floorsTotal req.context) req.image_urls.length ++
        (if order (svcOfLevel (levelSpec (pyBool req.context.add_heavy)
              (pyBool req.context.has_elevator) (floorsTotal req.context)
              req.image_urls.length)) <
            order (minServiceOf (normPlaceSize req.context))
          then ["vision_place_size_minimum"] else []) := by
  simp only [computeRecommendations, tierSignals_fst, tierSignals_snd]

/-- Instantiation of `reasons_exact_order`: three total floors and no
elevator produce exactly the multi-floor code. -/
theorem reasons_exact_order_witness :
    (computeRecommendations reqNoElev).reasons = ["vision_multi_floor_no_elevator"] :=
  (reasons_exact_order reqNoElev).trans rfl

/-- C8: the villa example — `place_size = "villa_350_500"`, `add_heavy = 0`,
`has_elevator = 1`, both floors 0, no images — yields tier heavy via the
minimum-tier enforcement, truck `xxl`, 5 workers, 480 minutes, confidence
0.70 and the singleton service list. -/
theorem villa_example :
    computeRecommendations reqVilla =
      { service_type := "heavy", truck_size := some "xxl", workers := some 5,
        estimated_minutes := some 480, reasons := ["vision_place_size_minimum"],
        confidence := 7/10, recommended_services := ["heavy"] } := rfl

/-- C9: the output depends only on `place_size`, the two floor fields,
`has_elevator`, `add_heavy` and the number of image URLs; `mode`,
`video_url`, `place_type`, the `service_type` hint and the image URL
contents are immaterial. -/
theorem output_ignores_incidental_fields (r1 r2 : AnalyzeRequest)
    (h1 : r1.context.place_size = r2.context.place_size)
    (h2 : r1.context.pickup_floor = r2.context.pickup_floor)
    (h3 : r1.context.destination_floor = r2.context.destination_floor)
    (h4 : r1.context.has_elevator = r2.context.has_elevator)
    (h5 : r1.context.add_heavy = r2.context.add_heavy)
    (h6 : r1.image_urls.length = r2.image_urls.length) :
    computeRecommendations r1 = computeRecommendations r2 := by
  simp only [computeRecommendations, normPlaceSize, floorsTotal, h1, h2, h3, h4, h5, h6]

/-- Instantiation of `output_ignores_incidental_fields` on two requests
differing in mode, video URL, place type, service-type hint and image
contents. -/
theorem output_ignores_incidental_fields_witness :
    computeRecommendations reqVideoA = computeRecommendations reqVideoTwin :=
  output_ignores_incidental_fields reqVideoA reqVideoTwin rfl rfl rfl rfl rfl rfl

/-- C10: the reasons list never holds duplicates, never exceeds three
entries, and `vision_add_heavy_context` and `vision_place_size_minimum`
never appear together, because the heavy flag already satisfies every
size-derived minimum. -/
theorem reasons_nodup_bounded (req : AnalyzeRequest) :
    (computeRecommendations req).reasons.Nodup ∧
    (computeRecommendations req).reasons.length ≤ 3 ∧
    ¬("vision_add_heavy_context" ∈ (computeRecommendations req).reasons ∧
      "vision_place_size_minimum" ∈ (computeRecommendations req).reasons) := by
  by_cases hA : pyBool req.context.add_heavy = true
  · have hlv : levelSpec (pyBool req.context.add_heavy)
        (pyBool req.context.has_elevator) (floorsTotal req.context)
        req.image_urls.length = 3 := by
      simp [levelSpec, hA]
    have hnot : ¬ order (svcOfLevel (levelSpec (pyBool req.context.add_heavy)
        (pyBool req.context.has_elevator) (floorsTotal req.context)
        req.image_urls.length)) < order (minServiceOf (normPlaceSize req.context)) := by
      rw [hlv]
      have h2 : order (svcOfLevel 3) = 2 := rfl
      have hle := order_minServiceOf_le_two (normPlaceSize req.context)
      omega
    simp only [computeRecommendations, tierSignals_fst, tierSignals_snd,
      if_neg hnot, List.append_nil]
    by_cases hM : pyBool req.context.has_elevator = false ∧ floorsTotal req.context ≥ 3 <;>
      by_cases h12 : req.image_urls.length ≥ 12 <;>
      by_cases h6 : req.image_urls.length ≥ 6 <;>
      simp [tierReasonsSpec, hA, hM, h12, h6]
  · have hA' : pyBool req.context.add_heavy = false := by
      revert hA
      cases pyBool req.context.add_heavy <;> simp
    simp only [computeRecommendations, tierSignals_fst, tierSignals_snd, hA']
    by_cases hE : order (svcOfLevel (levelSpec false
        (pyBool req.context.has_elevator) (floorsTotal req.context)
        req.image_urls.length)) < order (minServiceOf (normPlaceSize req.context)) <;>
      by_cases hM : pyBool req.context.has_elevator = false ∧ floorsTotal req.context ≥ 3 <;>
      by_cases h12 : req.image_urls.length ≥ 12 <;>
      by_cases h6 : req.image_urls.length ≥ 6 <;>
      simp [tierReasonsSpec, hE, hM, h12, h6] <;>
      try (constructor <;> split <;> simp)

/-- Instantiation of `reasons_nodup_bounded` at a concrete request. -/
theorem reasons_nodup_bounded_witness :
    (computeRecommendations reqHeavyFlag).reasons.Nodup ∧
      (computeRecommendations reqHeavyFlag).reasons.length ≤ 3 :=
  ⟨(reasons_nodup_bounded reqHeavyFlag).1, (reasons_nodup_bounded reqHeavyFlag).2.1⟩

/-- Instantiation of `confidence_bands_monotone`: zero images score 0.70,
and adding six images cannot lower the confidence. -/
theorem confidence_bands_monotone_witness :
    (computeRecommendations reqImgs0).confidence = 70/100 ∧
      (computeRecommendations reqImgs0).confidence ≤
        (computeRecommendations reqImgs6).confidence :=
  ⟨(confidence_bands_monotone reqImgs0).1.2.2 (by decide),
   (confidence_bands_monotone reqImgs0).2 reqImgs6 rfl rfl rfl (by decide)⟩
